import Mathlib

/-!
Verification of the q8s static source-dependency closure resolver
(src/q8s/multifiles.py and src/q8s/workload.py).

The Python code is shallowly embedded: the ambient operating-system
and import-machinery primitives used by the source (os.path operations,
file reads, the ast parser output, importlib.util.find_spec) live in an
Env structure of oracles, while every function of the repository itself
(the import extractor, the qualified-name resolver, the module locator
wrapper, the closure walker and the workload packager) is translated
statement by statement from the source.  Python exceptions are modelled
with Except, None with Option, and the unbounded while-loops with a fuel
parameter; a loop that returns in n iterations returns the same value for
every fuel of at least n plus one.
-/

/-- Python exceptions that the embedded code can raise. -/
inductive PyErr where
  | attributeError
  | ioError
  | valueError
deriving DecidableEq, Repr

/-- Decidable equality of Except values with decidable components, used
to evaluate runs of the embedded code inside proofs. -/
instance {e a : Type} [DecidableEq e] [DecidableEq a] : DecidableEq (Except e a)
  | .error x, .error y =>
      if h : x = y then .isTrue (congrArg Except.error h)
      else .isFalse (fun hc => h (Except.error.inj hc))
  | .error _, .ok _ => .isFalse (fun hc => Except.noConfusion hc)
  | .ok _, .error _ => .isFalse (fun hc => Except.noConfusion hc)
  | .ok x, .ok y =>
      if h : x = y then .isTrue (congrArg Except.ok h)
      else .isFalse (fun hc => h (Except.ok.inj hc))

/-- One import statement node of the parsed syntax tree, as seen by the
walk in iter-imports: either an Import node with its alias names, or an
ImportFrom node with its optional module, its relative level and its alias
names. -/
inductive PyImportStmt where
  | imp (names : List String)
  | fromImp (module : Option String) (level : Nat) (names : List String)
deriving DecidableEq, Repr

/-- A module spec as returned by the import machinery: its name, its
optional origin file and its optional submodule search locations. -/
structure ModSpec where
  name : String
  origin : Option String
  submodule_search_locations : Option (List String)
deriving DecidableEq, Repr

/-- The ambient environment: the process constants and the operating-system
and import-machinery primitives the source calls.  globalRoot embeds the
module constant GLOBAL (sys.base_prefix) and localRoot the constant LOCAL
(sys.prefix).  findSpecRaw embeds importlib.util.find_spec, which may raise
(modelled as Except.error) or return None or a spec. -/
structure Env where
  globalRoot : String
  localRoot : String
  cwd : String
  abspath : String → String
  dirname : String → String
  basename : String → String
  isFile : String → Bool
  pathExists : String → Bool
  commonpath : String → String → String
  relpath : String → String → String
  readFile : String → Option String
  parseToImports : String → Option (List PyImportStmt)
  findSpecRaw : String → Except Unit (Option ModSpec)

/-- The startswith test of Python strings, written over the character
lists so that it evaluates inside the kernel. -/
def pyStartswith (s pre : String) : Bool :=
  pre.data.isPrefixOf s.data

/-- The endswith test of Python strings, over character lists. -/
def strEndsWith (s suff : String) : Bool :=
  suff.data.isSuffixOf s.data

/-- The os.path.join of a directory and a relative file name, for POSIX
paths as used by the source. -/
def joinPath (dir name : String) : String :=
  if dir = "" then name
  else if strEndsWith dir "/" then dir ++ name
  else dir ++ "/" ++ name

/-- Helper of the dot split: accumulate characters of the current
component, starting a new component at every dot. -/
def splitDotAux : List Char → List Char → List (List Char)
  | [], acc => [acc.reverse]
  | c :: cs, acc =>
      if c = '.' then acc.reverse :: splitDotAux cs []
      else splitDotAux cs (c :: acc)

/-- The split of a Python string on the dot separator, as used by the
source on dotted package names: every occurrence separates, empty
components are kept, and the empty string yields one empty component. -/
def pySplitDot (s : String) : List String :=
  (splitDotAux s.data []).map String.mk

/-- Rendering of an optional string inside a Python f-string: None renders
as the four-letter text None.  Used by the level-one branches of the import
extractor, which interpolate cur_pkg without checking it for None. -/
def pyFStr : Option String → String
  | none => "None"
  | some p => p

/-- The references produced for a single import statement node by the body
of the walk loop of iter-imports (src/q8s/multifiles.py lines 42-70).
Every yielded pair is (module, level) with level literally zero, as in the
source; the third yielded component is always None and is omitted.  For a
level of at least two with a module present, the source evaluates
cur_pkg.split, which raises AttributeError when cur_pkg is None; with no
module present at such a level the entire branch body is skipped (it sits
under the if node.module test). -/
def importStmtRefs (curPkg : Option String) : PyImportStmt → Except PyErr (List (String × Nat))
  | .imp names => .ok (names.map (fun n => (n, 0)))
  | .fromImp mod 0 _ => .ok [(mod.getD "", 0)]
  | .fromImp mod 1 names =>
      match mod with
      | some m =>
          .ok ((pyFStr curPkg ++ "." ++ m, 0) ::
               names.map (fun n => (pyFStr curPkg ++ "." ++ m ++ "." ++ n, 0)))
      | none =>
          .ok (names.map (fun n => (pyFStr curPkg ++ "." ++ n, 0)))
  | .fromImp mod (lvl + 2) names =>
      match mod with
      | some m =>
          match curPkg with
          | none => .error .attributeError
          | some p =>
              let parts := pySplitDot p
              let parentPkg := String.intercalate "." (parts.take (parts.length - (lvl + 1)))
              .ok ((if m.data.contains '.' then [(parentPkg ++ "." ++ m, 0)] else []) ++
                   names.map (fun n => (parentPkg ++ "." ++ m ++ "." ++ n, 0)))
      | none => .ok []

/-- The walk over the parsed import nodes: concatenate the references of
each node in order, aborting at the first node whose body raises (the
yields already produced have no observable effect, because the sole
caller either consumes everything or propagates the raise). -/
def iterStmts (curPkg : Option String) : List PyImportStmt → Except PyErr (List (String × Nat))
  | [] => .ok []
  | s :: rest =>
      match importStmtRefs curPkg s with
      | .error e => .error e
      | .ok l =>
          match iterStmts curPkg rest with
          | .error e => .error e
          | .ok ls => .ok (l ++ ls)

/-- The import extractor iter-imports (src/q8s/multifiles.py lines 32-70):
read the file (an unreadable file yields no references), parse it (a
syntax error yields no references), then emit the references of each of
the import nodes in walk order.  A raise inside the walk body aborts the
whole iteration, which the caller does not catch. -/
def iterImports (env : Env) (pyfile : String) (curPkg : Option String) :
    Except PyErr (List (String × Nat)) :=
  match env.readFile pyfile with
  | none => .ok []
  | some src =>
      match env.parseToImports src with
      | none => .ok []
      | some stmts => iterStmts curPkg stmts

/-- The qualified-name resolver (src/q8s/multifiles.py lines 73-83),
statement by statement: level zero returns the module verbatim; a falsy
base package (None or empty) returns None; a level larger than the number
of components returns the module as a best effort; otherwise the prefix is
the join of the components with the trailing LEVEL components removed, and
the result is prefix dot module when the module is non-empty, else the
prefix alone. -/
def qualname (basePkg : Option String) (module : String) (level : Nat) : Option String :=
  if level = 0 then some module
  else
    match basePkg with
    | none => none
    | some p =>
        if p = "" then none
        else
          let parts := pySplitDot p
          if level > parts.length then some module
          else
            let pfx := String.intercalate "." (parts.take (parts.length - level))
            if module = "" then some pfx else some (pfx ++ "." ++ module)

/-- The module locator wrapper (src/q8s/multifiles.py lines 11-15): call
find_spec and turn any raised exception into None.  The package argument
of the source is None at every call site and is omitted. -/
def resolveSpec (env : Env) (modname : String) : Option ModSpec :=
  match env.findSpecRaw modname with
  | .error _ => none
  | .ok s => s

/-- The origin files of a spec (src/q8s/multifiles.py lines 18-29): the
origin when it is truthy and not the namespace marker, then the package
init file under each submodule search location that exists on disk. -/
def specOriginFiles (env : Env) : Option ModSpec → List String
  | none => []
  | some s =>
      (match s.origin with
       | some o => if o ≠ "" ∧ o ≠ "namespace" then [o] else []
       | none => []) ++
      (match s.submodule_search_locations with
       | some locs =>
           locs.filterMap (fun loc =>
             let initPy := joinPath loc "__init__.py"
             if env.isFile initPy then some initPy else none)
       | none => [])

/-- The upward walk of pkg-name-for-file: while the current directory
holds a package marker file, record its base name and step to its parent.
The source loop has no bound, so it takes fuel; every theorem assumes
enough fuel for the walk it describes. -/
def pkgWalk (env : Env) : Nat → String → List String → List String
  | 0, _, parts => parts
  | fuel + 1, cur, parts =>
      if env.isFile (joinPath cur "__init__.py") then
        pkgWalk env fuel (env.dirname cur) (parts ++ [env.basename cur])
      else parts

/-- The package-context computation pkg-name-for-file
(src/q8s/multifiles.py lines 86-100): absolutize the path, walk upward
collecting package directory names, and join them outermost first; None
when no enclosing package directory was found. -/
def pkg_name_for_file (env : Env) (pkgFuel : Nat) (fpath : String) : Option String :=
  let f := env.abspath fpath
  let parts := pkgWalk env pkgFuel (env.dirname f) []
  if parts = [] then none
  else some (String.intercalate "." parts.reverse)

/-- The mutable state of the closure walker loop: the result set of files,
the visited dedup keys and the worklist.  Python sets are represented as
duplicate-free lists in insertion order, and the worklist list is kept in
source order (append pushes at the end, pop takes the last element). -/
structure CState where
  files : List String
  visited : List (String × Option String × List String)
  toProcess : List (String × Option String)
deriving Repr

/-- The dedup key of a spec (src/q8s/multifiles.py lines 143-147): the
spec name when truthy else the target, the origin, and the search
locations with None collapsed to the empty tuple. -/
def visitKey (spec : ModSpec) (target : String) : String × Option String × List String :=
  (if spec.name = "" then target else spec.name,
   spec.origin,
   spec.submodule_search_locations.getD [])

/-- The restriction filter (src/q8s/multifiles.py lines 157-163): with a
truthy restriction root set, an origin is skipped when no root is the
common path of the origin and that root. -/
def restrictSkip (env : Env) (restrictRoots : Option (List String)) (origin : String) : Bool :=
  match restrictRoots with
  | none => false
  | some roots =>
      if roots.isEmpty then false
      else !(roots.any (fun root => env.commonpath origin root == root))

/-- The package context pushed together with a newly collected origin
(src/q8s/multifiles.py lines 175-179): the spec name when the spec has
truthy submodule search locations, else the package context computed from
the origin file. -/
def newCtx (env : Env) (pkgFuel : Nat) (spec : ModSpec) (origin : String) : Option String :=
  match spec.submodule_search_locations with
  | some locs =>
      if locs.isEmpty then pkg_name_for_file env pkgFuel origin
      else some spec.name
  | none => pkg_name_for_file env pkgFuel origin

/-- The per-origin body of the closure walker (src/q8s/multifiles.py
lines 152-181): absolutize the origin, skip it when it does not exist,
when the restriction filter rejects it, when it is already collected, or
when it is prefixed by the global or the local root; otherwise add it to
the result set and push it onto the worklist with its new package
context. -/
def addOrigin (env : Env) (restrictRoots : Option (List String)) (pkgFuel : Nat)
    (spec : ModSpec) (st : CState) (origin0 : String) : CState :=
  let origin := env.abspath origin0
  if ¬ env.pathExists origin then st
  else if restrictSkip env restrictRoots origin then st
  else if origin ∈ st.files then st
  else if pyStartswith origin env.globalRoot then st
  else if pyStartswith origin env.localRoot then st
  else
    { st with
      files := st.files ++ [origin],
      toProcess := st.toProcess ++ [(origin, newCtx env pkgFuel spec origin)] }

/-- The per-import body of the closure walker (src/q8s/multifiles.py
lines 132-181): resolve the qualified name and skip a falsy target, locate
the spec and skip a missing one, skip an already-visited dedup key, else
mark it visited and process every origin file of the spec. -/
def processImport (env : Env) (restrictRoots : Option (List String)) (pkgFuel : Nat)
    (curPkg : Option String) (st : CState) (imp : String × Nat) : CState :=
  match qualname curPkg imp.1 imp.2 with
  | none => st
  | some target =>
      if target = "" then st
      else
        match resolveSpec env target with
        | none => st
        | some spec =>
            let key := visitKey spec target
            if key ∈ st.visited then st
            else
              (specOriginFiles env (some spec)).foldl
                (addOrigin env restrictRoots pkgFuel spec)
                { st with visited := st.visited ++ [key] }

/-- Removal of the last element of a list, embedding the Python list pop
used on the worklist. -/
def popLast? {α : Type} : List α → Option (α × List α)
  | [] => none
  | [x] => some (x, [])
  | x :: y :: xs =>
      match popLast? (y :: xs) with
      | some (z, zs) => some (z, x :: zs)
      | none => none

/-- The while-loop of the closure walker (src/q8s/multifiles.py lines
130-181): while the worklist is non-empty, pop its last entry, extract
its imports (propagating a raise), fold the per-import body over them.
Fuel bounds the number of iterations; an empty worklist returns the
collected files. -/
def collectLoop (env : Env) (restrictRoots : Option (List String)) (pkgFuel : Nat) :
    Nat → CState → Except PyErr (List String)
  | 0, st => .ok st.files
  | fuel + 1, st =>
      match popLast? st.toProcess with
      | none => .ok st.files
      | some ((curFile, curPkg), rest) =>
          match iterImports env curFile curPkg with
          | .error e => .error e
          | .ok imps =>
              collectLoop env restrictRoots pkgFuel fuel
                (imps.foldl (processImport env restrictRoots pkgFuel curPkg)
                  { st with toProcess := rest })

/-- The closure walker collect-imported-files (src/q8s/multifiles.py
lines 103-183): absolutize and seed the entry script, compute the optional
restriction roots from the optional top package, seed the worklist with
the entry and its package context, and run the loop. -/
def collect_imported_files (env : Env) (entry_script : String)
    (restrict_to_top_package : Option String) (fuel pkgFuel : Nat) :
    Except PyErr (List String) :=
  let entry := env.abspath entry_script
  let restrictRoots : Option (List String) :=
    match restrict_to_top_package with
    | none => none
    | some p =>
        if p = "" then none
        else
          match resolveSpec env p with
          | some topSpec =>
              match topSpec.submodule_search_locations with
              | some locs =>
                  if locs.isEmpty then none else some (locs.map env.abspath)
              | none => none
          | none => none
  collectLoop env restrictRoots pkgFuel fuel
    { files := [entry],
      visited := [],
      toProcess := [(entry, pkg_name_for_file env pkgFuel entry)] }

/-- Replacement of each path-separator character by a double underscore at
the character level, embedding the replace call of the path mapping
(src/q8s/workload.py line 82); for a one-character pattern the Python
replace is exactly this character-wise substitution. -/
def replaceSlashAux : List Char → List Char
  | [] => []
  | c :: cs =>
      if c = '/' then '_' :: '_' :: replaceSlashAux cs
      else c :: replaceSlashAux cs

/-- String form of the separator replacement. -/
def pyReplaceSlash (s : String) : String := ⟨replaceSlashAux s.data⟩

/-- The relative-path helper of the workload (src/q8s/workload.py lines
72-76): the path of the file, absolutized, relative to the base path. -/
def relative_path (env : Env) (basePath : String) (file : String) : String :=
  env.relpath (env.abspath file) basePath

/-- The unique path mapping of a file (src/q8s/workload.py lines 78-82):
its relative path with every separator replaced by a double underscore. -/
def path_mapping (env : Env) (basePath : String) (file : String) : String :=
  pyReplaceSlash (relative_path env basePath file)

/-- The workload record: the absolutized entry script, the base path, the
collected files and the content map, as stored by the constructor. -/
structure Workload where
  entryFile : String
  basePath : String
  files : List String
  data : List (String × String)
deriving Repr, DecidableEq

/-- The content-map construction of the constructor (src/q8s/workload.py
lines 18-20): read every collected file, pairing its path mapping with its
text; a file that cannot be opened raises. -/
def readAll (env : Env) (basePath : String) : List String → Option (List (String × String))
  | [] => some []
  | f :: fs =>
      match env.readFile f with
      | none => none
      | some t =>
          match readAll env basePath fs with
          | none => none
          | some rest => some ((path_mapping env basePath f, t) :: rest)

/-- The workload constructor (src/q8s/workload.py lines 12-28): with an
entry script, absolutize it, take its parent directory as the base path,
collect the imported files and read them all; with a code string, the
entry is the absolutized main.py, the base path is the working directory
and the single content entry carries the code; with neither, raise
ValueError.  A raise out of the closure walker or out of a file open
propagates. -/
def workloadInit (env : Env) (entry_script : Option String) (code : Option String)
    (fuel pkgFuel : Nat) : Except PyErr Workload :=
  match entry_script with
  | some es =>
      let entry := env.abspath es
      let base := env.dirname entry
      match collect_imported_files env entry none fuel pkgFuel with
      | .error e => .error e
      | .ok fs =>
          match readAll env base fs with
          | none => .error .ioError
          | some pairs =>
              .ok { entryFile := entry, basePath := base, files := fs, data := pairs }
  | none =>
      match code with
      | some c =>
          let entry := env.abspath "main.py"
          .ok { entryFile := entry, basePath := env.cwd, files := [entry],
                data := [(path_mapping env env.cwd entry, c)] }
      | none => .error .valueError

/-- The entry-script property of the workload (src/q8s/workload.py lines
51-56): the entry file path relative to the base path. -/
def Workload.entryRel (env : Env) (w : Workload) : String :=
  relative_path env w.basePath w.entryFile

/-- The mappings property of the workload (src/q8s/workload.py lines
65-70): each collected file keyed by its path mapping, valued by its
relative path. -/
def Workload.mappings (env : Env) (w : Workload) : List (String × String) :=
  w.files.map (fun f => (path_mapping env w.basePath f, relative_path env w.basePath f))

/-- Spec-side flattening: the relative path with every separator character
replaced by the double-underscore delimiter, written as a fold so that it
can be compared with the character recursion of the source embedding. -/
def specFlatten (r : String) : String :=
  ⟨r.data.foldr (fun c acc => if c = '/' then '_' :: '_' :: acc else c :: acc) []⟩

/-- Spec-side trailing-component stripping: the dotted name with its last
k components removed (empty when k reaches or exceeds the component
count), used to state the resolver and extractor claims. -/
def stripTrailing (p : String) (k : Nat) : String :=
  String.intercalate "." ((pySplitDot p).take ((pySplitDot p).length - k))

/-- The module locator with the process search path made explicit: the
source body (src/q8s/multifiles.py lines 11-15) wraps the lookup in a
try-except and contains no statement touching the search path, so the
lookup consults the ambient path as-is and the path after the call is the
path before it.  The finder argument stands for find_spec as a function of
the name and of the current search path. -/
def resolveSpecPath (finder : String → List String → Except Unit (Option ModSpec))
    (path : List String) (modname : String) : Option ModSpec × List String :=
  (match finder modname path with
   | .error _ => none
   | .ok s => s,
   path)

/-- Modelled from the spec: the Module Locator section claims that the
invocation working directory is temporarily prepended to the search path
for the duration of one lookup and then restored.  No such code exists in
src/q8s/multifiles.py; this definition follows the words of the spec for
comparison with the source embedding above. -/
def resolveSpecClaimed (cwd : String)
    (finder : String → List String → Except Unit (Option ModSpec))
    (path : List String) (modname : String) : Option ModSpec × List String :=
  (match finder modname (cwd :: path) with
   | .error _ => none
   | .ok s => s,
   path)

/-- A finder whose answer depends on the head of the search path, used to
separate the source locator from the claimed one. -/
def cwdSensitiveFinder : String → List String → Except Unit (Option ModSpec) :=
  fun _ path =>
    if path.head? = some "/proj" then .ok (some ⟨ "m", some "/proj/m.py", none ⟩)
    else .ok none

/-- A neutral ambient environment: nothing exists, nothing reads, nothing
resolves; concrete test environments override single fields. -/
def baseEnv : Env where
  globalRoot := "/gr"
  localRoot := "/lr"
  cwd := "/cw"
  abspath := fun p => p
  dirname := fun _ => "/d"
  basename := fun p => p
  isFile := fun _ => false
  pathExists := fun _ => false
  commonpath := fun _ _ => ""
  relpath := fun p _ => p
  readFile := fun _ => none
  parseToImports := fun _ => none
  findSpecRaw := fun _ => .ok none

/-- An environment whose exclusion roots both equal /usr, with an entry
script located below them. -/
def envGlob : Env := { baseEnv with globalRoot := "/usr", localRoot := "/usr" }

/-- An environment in which the entry script does not exist and cannot be
read. -/
def envMissing : Env := baseEnv

/-- An environment whose entry script parses to a single two-level
relative import while the entry has no package context. -/
def envRel : Env :=
  { baseEnv with
    readFile := fun p => if p = "/r/e.py" then some "SRC" else none,
    parseToImports := fun s =>
      if s = "SRC" then some [.fromImp (some "mod") 2 ["a"]] else none }

/-- An environment holding the level-two relative import of the repository
test suite: from two dots subpkg1 import modY, inside package
pkg.subpkg2. -/
def envL2 : Env :=
  { baseEnv with
    readFile := fun p => if p = "/pkg/subpkg2/__init__.py" then some "SRC2" else none,
    parseToImports := fun s =>
      if s = "SRC2" then some [.fromImp (some "subpkg1") 2 ["modY"]] else none }

/-- An environment with one readable entry script that imports nothing. -/
def envOne : Env :=
  { baseEnv with
    readFile := fun p => if p = "/w/a.py" then some "CODE" else none,
    parseToImports := fun s => if s = "CODE" then some [] else none,
    dirname := fun p => if p = "/w/a.py" then "/w" else "/d",
    relpath := fun p b => if p = "/w/a.py" ∧ b = "/w" then "a.py" else p }

/-- The workload produced by envOne from its entry script. -/
def wOne : Workload :=
  { entryFile := "/w/a.py", basePath := "/w", files := ["/w/a.py"],
    data := [("a.py", "CODE")] }

/-- The workload produced by envOne from an inline code string. -/
def wCode : Workload :=
  { entryFile := "main.py", basePath := "/cw", files := ["main.py"],
    data := [("main.py", "c")] }

/-- A two-file environment in which file a imports module mB backed by
file b, and file b imports module mA backed by file a: a dependency
cycle between two project files. -/
def envTwo (a b : String) : Env :=
  { baseEnv with
    pathExists := fun p => p == a || p == b,
    readFile := fun p => if p = a then some "SA" else if p = b then some "SB" else none,
    parseToImports := fun s =>
      if s = "SA" then some [.imp ["mB"]]
      else if s = "SB" then some [.imp ["mA"]]
      else none,
    findSpecRaw := fun n =>
      if n = "mB" then .ok (some ⟨ "mB", some b, none ⟩)
      else if n = "mA" then .ok (some ⟨ "mA", some a, none ⟩)
      else .ok none }

/-- The per-origin step either leaves the file set unchanged or appends
one origin that passed both exclusion-root tests. -/
lemma addOrigin_cases (env : Env) (rr : Option (List String)) (pf : Nat)
    (spec : ModSpec) (st : CState) (o : String) :
    (addOrigin env rr pf spec st o).files = st.files ∨
    ((addOrigin env rr pf spec st o).files = st.files ++ [env.abspath o] ∧
     pyStartswith (env.abspath o) env.globalRoot = false ∧
     pyStartswith (env.abspath o) env.localRoot = false) := by
  simp only [addOrigin]
  split
  · exact .inl rfl
  split
  · exact .inl rfl
  split
  · exact .inl rfl
  split
  · exact .inl rfl
  split
  · exact .inl rfl
  rename_i h1 h2 h3 h4 h5
  exact .inr ⟨rfl, by simpa using h4, by simpa using h5⟩

/-- Folding the per-origin step never removes a collected file. -/
lemma foldl_addOrigin_mono (env : Env) (rr : Option (List String)) (pf : Nat)
    (spec : ModSpec) :
    ∀ (os : List String) (st : CState) (x : String), x ∈ st.files →
      x ∈ (os.foldl (addOrigin env rr pf spec) st).files := by
  intro os
  induction os with
  | nil => intro st x hx; exact hx
  | cons o os ih =>
      intro st x hx
      apply ih
      rcases addOrigin_cases env rr pf spec st o with h | ⟨h, _, _⟩
      · rw [h]; exact hx
      · rw [h]; exact List.mem_append_left _ hx

/-- Every file present after folding the per-origin step was already
collected or lies outside both exclusion roots. -/
lemma foldl_addOrigin_good (env : Env) (rr : Option (List String)) (pf : Nat)
    (spec : ModSpec) :
    ∀ (os : List String) (st : CState) (x : String),
      x ∈ (os.foldl (addOrigin env rr pf spec) st).files →
      x ∈ st.files ∨
      (pyStartswith x env.globalRoot = false ∧ pyStartswith x env.localRoot = false) := by
  intro os
  induction os with
  | nil => intro st x hx; exact .inl hx
  | cons o os ih =>
      intro st x hx
      rcases ih _ x hx with h | h
      · rcases addOrigin_cases env rr pf spec st o with he | ⟨he, hg, hl⟩
        · rw [he] at h; exact .inl h
        · rw [he] at h
          rcases List.mem_append.1 h with h1 | h1
          · exact .inl h1
          · have := List.mem_singleton.1 h1
            subst this
            exact .inr ⟨hg, hl⟩
      · exact .inr h

/-- The per-import step never removes a collected file. -/
lemma processImport_mono (env : Env) (rr : Option (List String)) (pf : Nat)
    (cp : Option String) (st : CState) (imp : String × Nat) (x : String)
    (hx : x ∈ st.files) :
    x ∈ (processImport env rr pf cp st imp).files := by
  simp only [processImport]
  split
  · exact hx
  split
  · exact hx
  split
  · exact hx
  split
  · exact hx
  exact foldl_addOrigin_mono env rr pf _ _ _ x hx

/-- Every file present after the per-import step was already collected or
lies outside both exclusion roots. -/
lemma processImport_good (env : Env) (rr : Option (List String)) (pf : Nat)
    (cp : Option String) (st : CState) (imp : String × Nat) (x : String)
    (hx : x ∈ (processImport env rr pf cp st imp).files) :
    x ∈ st.files ∨
    (pyStartswith x env.globalRoot = false ∧ pyStartswith x env.localRoot = false) := by
  simp only [processImport] at hx
  split at hx
  · exact .inl hx
  split at hx
  · exact .inl hx
  split at hx
  · exact .inl hx
  split at hx
  · exact .inl hx
  have h := foldl_addOrigin_good env rr pf _ _ _ x hx
  exact h

/-- Folding the per-import step over an import list never removes a
collected file. -/
lemma foldl_processImport_mono (env : Env) (rr : Option (List String)) (pf : Nat)
    (cp : Option String) :
    ∀ (imps : List (String × Nat)) (st : CState) (x : String), x ∈ st.files →
      x ∈ (imps.foldl (processImport env rr pf cp) st).files := by
  intro imps
  induction imps with
  | nil => intro st x hx; exact hx
  | cons i imps ih =>
      intro st x hx
      exact ih _ x (processImport_mono env rr pf cp st i x hx)

/-- Every file present after folding the per-import step was already
collected or lies outside both exclusion roots. -/
lemma foldl_processImport_good (env : Env) (rr : Option (List String)) (pf : Nat)
    (cp : Option String) :
    ∀ (imps : List (String × Nat)) (st : CState) (x : String),
      x ∈ (imps.foldl (processImport env rr pf cp) st).files →
      x ∈ st.files ∨
      (pyStartswith x env.globalRoot = false ∧ pyStartswith x env.localRoot = false) := by
  intro imps
  induction imps with
  | nil => intro st x hx; exact .inl hx
  | cons i imps ih =>
      intro st x hx
      rcases ih _ x hx with h | h
      · exact processImport_good env rr pf cp st i x h
      · exact .inr h

/-- The closure loop never drops a file already collected in its state. -/
lemma collectLoop_mono (env : Env) (rr : Option (List String)) (pf : Nat) :
    ∀ (fuel : Nat) (st : CState) (fs : List String),
      collectLoop env rr pf fuel st = .ok fs → ∀ x ∈ st.files, x ∈ fs := by
  intro fuel
  induction fuel with
  | zero =>
      intro st fs h x hx
      injection h with h
      subst h
      exact hx
  | succ n ih =>
      intro st fs h x hx
      unfold collectLoop at h
      split at h
      · injection h with h; subst h; exact hx
      · split at h
        · cases h
        · refine ih _ _ h x ?_
          exact foldl_processImport_mono env rr pf _ _ _ x hx

/-- Every member of a result of the closure loop was in the starting state
or lies outside both exclusion roots. -/
lemma collectLoop_good (env : Env) (rr : Option (List String)) (pf : Nat) :
    ∀ (fuel : Nat) (st : CState) (fs : List String),
      collectLoop env rr pf fuel st = .ok fs →
      ∀ x ∈ fs, x ∈ st.files ∨
        (pyStartswith x env.globalRoot = false ∧ pyStartswith x env.localRoot = false) := by
  intro fuel
  induction fuel with
  | zero =>
      intro st fs h x hx
      injection h with h
      subst h
      exact .inl hx
  | succ n ih =>
      intro st fs h x hx
      unfold collectLoop at h
      split at h
      · injection h with h; subst h; exact .inl hx
      · split at h
        · cases h
        · rcases ih _ _ h x hx with h1 | h1
          · have h2 := foldl_processImport_good env rr pf _ _ _ x h1
            exact h2
          · exact .inr h1

/-- C1 (amended): every member of a successful closure result other than
the absolutized entry file has a path prefixed by neither the global
runtime installation root nor the local environment root; the entry file
itself is added unconditionally and is not subject to the exclusion. -/
theorem closure_members_outside_roots_unless_entry
    (env : Env) (es : String) (rr : Option String) (fuel pf : Nat)
    (fs : List String) (f : String)
    (h : collect_imported_files env es rr fuel pf = .ok fs) (hf : f ∈ fs) :
    f = env.abspath es ∨
    (pyStartswith f env.globalRoot = false ∧ pyStartswith f env.localRoot = false) := by
  unfold collect_imported_files at h
  rcases collectLoop_good env _ pf fuel _ fs h f hf with h1 | h1
  · left
    simpa using h1
  · right
    exact h1

/-- C1 (counterexample): with both exclusion roots equal to the /usr
directory, the closure of an entry script below that root is returned
successfully and contains the entry file, whose path is prefixed by the
global root — so the claim that no member of the returned set is prefixed
by an exclusion root fails at the entry file. -/
theorem closure_entry_inside_global_root :
    collect_imported_files envGlob "/usr/x.py" none 2 2 = .ok ["/usr/x.py"] ∧
    "/usr/x.py" ∈ ["/usr/x.py"] ∧
    pyStartswith "/usr/x.py" envGlob.globalRoot = true := by
  refine ⟨by decide, by decide, by decide⟩

/-- C1 (witness): the amended theorem applied to a concrete run. -/
theorem closure_members_outside_roots_unless_entry_witness :
    collect_imported_files envMissing "/m/x.py" none 2 2 = .ok ["/m/x.py"] ∧
    ("/m/x.py" = envMissing.abspath "/m/x.py" ∨
     (pyStartswith "/m/x.py" envMissing.globalRoot = false ∧
      pyStartswith "/m/x.py" envMissing.localRoot = false)) :=
  ⟨by decide,
   closure_members_outside_roots_unless_entry envMissing "/m/x.py" none 2 2
     ["/m/x.py"] "/m/x.py" (by decide) (by decide)⟩

/-- C2: every successful closure result contains the absolutized entry
file, whatever the entry imports and whether anything resolves. -/
theorem closure_contains_entry
    (env : Env) (es : String) (rr : Option String) (fuel pf : Nat)
    (fs : List String)
    (h : collect_imported_files env es rr fuel pf = .ok fs) :
    env.abspath es ∈ fs := by
  unfold collect_imported_files at h
  exact collectLoop_mono env _ pf fuel _ fs h _ (by simp)

/-- C2 (witness): the entry-membership theorem applied to a concrete
run. -/
theorem closure_contains_entry_witness :
    collect_imported_files envOne "/w/a.py" none 2 2 = .ok ["/w/a.py"] ∧
    envOne.abspath "/w/a.py" ∈ ["/w/a.py"] :=
  ⟨by decide, closure_contains_entry envOne "/w/a.py" none 2 2 ["/w/a.py"] (by decide)⟩

/-- The closure loop returns its collected files at once when the
worklist is empty, for every fuel. -/
lemma collectLoop_empty (env : Env) (rr : Option (List String)) (pf fuel : Nat)
    (st : CState) (h : st.toProcess = []) :
    collectLoop env rr pf fuel st = .ok st.files := by
  cases fuel with
  | zero => rfl
  | succ n =>
      unfold collectLoop
      rw [h]
      rfl

/-- A closure run whose entry file cannot be read returns the singleton
of the absolutized entry, for every fuel: nothing checks entry
existence. -/
lemma collect_unreadable (env : Env) (e : String) (rr : Option String)
    (fuel pf : Nat) (hread : env.readFile (env.abspath e) = none) :
    collect_imported_files env e rr fuel pf = .ok [env.abspath e] := by
  unfold collect_imported_files
  cases fuel with
  | zero => rfl
  | succ n =>
      unfold collectLoop
      have hiter : iterImports env (env.abspath e)
          (pkg_name_for_file env pf (env.abspath e)) = .ok [] := by
        unfold iterImports
        rw [hread]
      simp only [popLast?]
      rw [hiter]
      exact collectLoop_empty env _ pf n _ rfl

/-- C3 (counterexample): in an environment where the entry file does not
exist and cannot be opened, the closure computation does not fail at all:
it returns the singleton closure of the missing entry, so resolution does
not fail fast on a missing entry file. -/
theorem missing_entry_returns_ok :
    envMissing.pathExists (envMissing.abspath "/m/x.py") = false ∧
    collect_imported_files envMissing "/m/x.py" none 2 2 = .ok ["/m/x.py"] := by
  refine ⟨by decide, by decide⟩

/-- C3 (amended): neither the closure walker nor the workload constructor
checks entry-file existence up front.  An unreadable (for example
missing) entry yields the successful singleton closure, and the workload
constructor fails only afterwards, when it opens the collected files for
their content, with a generic input-output error rather than an
entry-file-not-found report. -/
theorem missing_entry_not_fail_fast
    (env : Env) (es : String) (rr : Option String) (fuel pf : Nat)
    (hread : env.readFile (env.abspath es) = none)
    (hidem : env.abspath (env.abspath es) = env.abspath es) :
    collect_imported_files env es rr fuel pf = .ok [env.abspath es] ∧
    workloadInit env (some es) none fuel pf = .error .ioError := by
  constructor
  · exact collect_unreadable env es rr fuel pf hread
  · have hcol : collect_imported_files env (env.abspath es) none fuel pf =
        .ok [env.abspath (env.abspath es)] := by
      refine collect_unreadable env (env.abspath es) none fuel pf ?_
      rw [hidem]
      exact hread
    simp only [workloadInit]
    rw [hcol]
    have hra : readAll env (env.dirname (env.abspath es))
        [env.abspath (env.abspath es)] = none := by
      unfold readAll
      rw [hidem, hread]
    dsimp only
    rw [hra]

/-- C3 (witness): the amended theorem applied to the concrete environment
with a missing entry. -/
theorem missing_entry_not_fail_fast_witness :
    envMissing.readFile (envMissing.abspath "/m/x.py") = none ∧
    (collect_imported_files envMissing "/m/x.py" none 2 2 = .ok ["/m/x.py"] ∧
     workloadInit envMissing (some "/m/x.py") none 2 2 = .error .ioError) :=
  ⟨by decide,
   missing_entry_not_fail_fast envMissing "/m/x.py" none 2 2 (by decide) (by decide)⟩

/-- C4: a file whose imports are relative at level two or more while the
file has no package context makes the extractor evaluate the split method
of a missing context, raising AttributeError; the closure computation
propagates the raise instead of treating the file as contributing no edge
and still returning a result. -/
theorem relative_import_without_context_raises :
    iterImports envRel "/r/e.py" none = .error .attributeError ∧
    collect_imported_files envRel "/r/e.py" none 2 2 = .error .attributeError := by
  refine ⟨by decide, by decide⟩

/-- C5 (counterexample): with base context a.b, referenced name m and
level one, the resolver strips one trailing component (giving a.m) even
though stripping level minus one components, as claimed, would give
a.b.m; the claimed equality fails. -/
theorem qualname_strips_level_components :
    qualname (some "a.b") "m" 1 = some "a.m" ∧
    some "a.m" ≠ some ("a.b" ++ "." ++ "m") := by
  refine ⟨by decide, by decide⟩

/-- C5 (amended): for a positive level the resolver returns absent on an
absent or empty base context, returns the referenced name unqualified
when the level exceeds the component count, and otherwise strips the
trailing LEVEL components (not level minus one) from the base context and
joins the remainder with the referenced name by a dot, the remainder
alone when the referenced name is empty. -/
theorem qualname_characterization (p m : String) (level : Nat)
    (hlv : 0 < level) (hp : p ≠ "") :
    qualname none m level = none ∧
    qualname (some "") m level = none ∧
    (level > (pySplitDot p).length → qualname (some p) m level = some m) ∧
    (level ≤ (pySplitDot p).length →
      qualname (some p) m level =
        some (if m = "" then stripTrailing p level
              else stripTrailing p level ++ "." ++ m)) := by
  have h0 : level ≠ 0 := Nat.pos_iff_ne_zero.1 hlv
  refine ⟨?_, ?_, ?_, ?_⟩
  · simp [qualname, h0]
  · simp [qualname, h0]
  · intro hgt
    simp [qualname, h0, hp, hgt]
  · intro hle
    have hng : ¬ ((pySplitDot p).length < level) := Nat.not_lt.mpr hle
    simp only [qualname, stripTrailing, h0, hp, hng, if_neg, if_false, gt_iff_lt]
    split <;> simp

/-- C5 (witness): the amended characterization applied at the base
context pkg.subpkg1, name modY, level one: the stripped prefix is pkg and
the result is pkg.modY. -/
theorem qualname_characterization_witness :
    ((0 : Nat) < 1 ∧ "pkg.subpkg1" ≠ "" ∧ 1 ≤ (pySplitDot "pkg.subpkg1").length) ∧
    qualname (some "pkg.subpkg1") "modY" 1 = some "pkg.modY" := by
  refine ⟨⟨by decide, by decide, by decide⟩, ?_⟩
  have h := (qualname_characterization "pkg.subpkg1" "modY" 1
      (by decide) (by decide)).2.2.2 (by decide)
  rw [h]
  decide

/-- C6 (counterexample): for the level-two relative import of subpkg1,
which imports modY inside package pkg.subpkg2, the extractor yields the
speculative per-name reference pkg.subpkg1.modY; the reference for the
module itself, pkg.subpkg1, is not yielded, unlike the level-one rule the
claim invokes. -/
theorem iter_imports_levelN_drops_module_ref :
    iterImports envL2 "/pkg/subpkg2/__init__.py" (some "pkg.subpkg2") =
      .ok [("pkg.subpkg1.modY", 0)] ∧
    ("pkg.subpkg1", (0 : Nat)) ∉ [(("pkg.subpkg1.modY" : String), (0 : Nat))] := by
  refine ⟨by decide, by decide⟩

/-- C6 (amended): for a level-N (N at least two) relative import with a
stated module and package context, the extractor yields one speculative
reference per bound name against the ancestor package N minus one levels
up, but yields the reference for the module itself only when the stated
module name is dotted (contains a dot); a single-component module gets no
module-itself reference. -/
theorem iter_imports_levelN_refs (env : Env) (file src p m : String)
    (names : List String) (lvl : Nat)
    (h1 : env.readFile file = some src)
    (h2 : env.parseToImports src = some [.fromImp (some m) (lvl + 2) names]) :
    iterImports env file (some p) =
      .ok ((if m.data.contains '.'
            then [(stripTrailing p (lvl + 1) ++ "." ++ m, 0)] else []) ++
           names.map (fun n => (stripTrailing p (lvl + 1) ++ "." ++ m ++ "." ++ n, 0))) := by
  simp only [iterImports, h1, h2]
  simp [iterStmts, importStmtRefs, stripTrailing]

/-- C6 (witness): the amended statement applied to the concrete
level-two statement of the repository test suite, yielding exactly the
speculative reference. -/
theorem iter_imports_levelN_refs_witness :
    envL2.readFile "/pkg/subpkg2/__init__.py" = some "SRC2" ∧
    iterImports envL2 "/pkg/subpkg2/__init__.py" (some "pkg.subpkg2") =
      .ok [("pkg.subpkg1.modY", 0)] := by
  refine ⟨by decide, ?_⟩
  have h := iter_imports_levelN_refs envL2 "/pkg/subpkg2/__init__.py" "SRC2"
      "pkg.subpkg2" "subpkg1" ["modY"] 0 (by decide) (by decide)
  rw [h]
  decide

/-- C7 (counterexample): a finder that succeeds exactly when the working
directory heads the search path separates the source locator from the
claimed one: the source locator, which never prepends, fails the lookup
that the claimed prepending locator would satisfy, so the code does not
prepend the working directory for the lookup. -/
theorem resolve_spec_differs_from_claimed_prepend :
    (resolveSpecPath cwdSensitiveFinder ["/lib"] "m").1 = none ∧
    (resolveSpecClaimed "/proj" cwdSensitiveFinder ["/lib"] "m").1 =
      some ⟨ "m", some "/proj/m.py", none ⟩ ∧
    resolveSpecPath cwdSensitiveFinder ["/lib"] "m" ≠
      resolveSpecClaimed "/proj" cwdSensitiveFinder ["/lib"] "m" := by
  refine ⟨by decide, by decide, by decide⟩

/-- C7 (amended): the locator never modifies the search path at all: the
lookup runs against the ambient path unmodified, the path after any
lookup equals the path before it (trivially, exception or not), and a
raising finder yields an absent location. -/
theorem resolve_spec_leaves_search_path
    (finder : String → List String → Except Unit (Option ModSpec))
    (path : List String) (modname : String) :
    (resolveSpecPath finder path modname).2 = path ∧
    (∀ e, finder modname path = .error e →
      (resolveSpecPath finder path modname).1 = none) ∧
    (∀ s, finder modname path = .ok s →
      (resolveSpecPath finder path modname).1 = s) := by
  refine ⟨rfl, ?_, ?_⟩ <;> intro v h <;> simp [resolveSpecPath, h]

/-- C7 (witness): the amended statement applied to the concrete
path-sensitive finder on the one-element search path. -/
theorem resolve_spec_leaves_search_path_witness :
    (resolveSpecPath cwdSensitiveFinder ["/lib"] "m").2 = ["/lib"] ∧
    (resolveSpecPath cwdSensitiveFinder ["/lib"] "m").1 = none :=
  ⟨(resolve_spec_leaves_search_path cwdSensitiveFinder ["/lib"] "m").1,
   (resolve_spec_leaves_search_path cwdSensitiveFinder ["/lib"] "m").2.2
     none (by decide)⟩

/-- In an environment without package marker files the package walk stops
at once. -/
lemma pkgWalk_noFile (env : Env) (h : ∀ x, env.isFile x = false) :
    ∀ (n : Nat) (cur : String) (parts : List String), pkgWalk env n cur parts = parts := by
  intro n
  cases n with
  | zero => intro cur parts; rfl
  | succ m =>
      intro cur parts
      unfold pkgWalk
      rw [h]
      simp

/-- In an environment without package marker files every file has absent
package context. -/
lemma pkg_name_noFile (env : Env) (h : ∀ x, env.isFile x = false)
    (pf : Nat) (x : String) : pkg_name_for_file env pf x = none := by
  simp only [pkg_name_for_file]
  rw [pkgWalk_noFile env h]
  rfl

/-- One unfolding of the closure loop at a successful pop and a
successful import extraction. -/
lemma collectLoop_step (env : Env) (rr : Option (List String)) (pf n : Nat)
    (st : CState) (x1 : String) (x2 : Option String)
    (rest : List (String × Option String)) (imps : List (String × Nat))
    (hpop : popLast? st.toProcess = some ((x1, x2), rest))
    (himp : iterImports env x1 x2 = .ok imps) :
    collectLoop env rr pf (n + 1) st =
      collectLoop env rr pf n
        (imps.foldl (processImport env rr pf x2) { st with toProcess := rest }) := by
  conv_lhs => unfold collectLoop
  rw [hpop]
  dsimp only
  rw [himp]

/-- C8: two project files that import each other resolve, from either as
entry, to exactly the set of the two files: the traversal terminates (for
every fuel of at least three the loop has reached its empty-worklist
fixed point and the result no longer changes), the second file is visited
only once, and nothing else is collected. -/
theorem closure_mutual_imports_terminates
    (a b : String) (fuel pf : Nat)
    (hab : a ≠ b) (ha0 : a ≠ "") (hb0 : b ≠ "")
    (han : a ≠ "namespace") (hbn : b ≠ "namespace")
    (hga : pyStartswith a "/gr" = false) (hla : pyStartswith a "/lr" = false)
    (hgb : pyStartswith b "/gr" = false) (hlb : pyStartswith b "/lr" = false)
    (hfuel : 3 ≤ fuel) :
    collect_imported_files (envTwo a b) a none fuel pf = .ok [a, b] := by
  obtain ⟨k, rfl⟩ : ∃ k, fuel = k + 3 := ⟨fuel - 3, by omega⟩
  have hba : b ≠ a := Ne.symm hab
  have hfile : ∀ x, (envTwo a b).isFile x = false := fun _ => rfl
  have hpkg : ∀ x, pkg_name_for_file (envTwo a b) pf x = none :=
    fun x => pkg_name_noFile (envTwo a b) hfile pf x
  have hgr : (envTwo a b).globalRoot = "/gr" := rfl
  have hlr : (envTwo a b).localRoot = "/lr" := rfl
  have habs : ∀ p, (envTwo a b).abspath p = p := fun _ => rfl
  have hex : ∀ p, (envTwo a b).pathExists p = (p == a || p == b) := fun _ => rfl
  have hfsB : (envTwo a b).findSpecRaw "mB" =
      .ok (some ⟨ "mB", some b, none ⟩) := rfl
  have hfsA : (envTwo a b).findSpecRaw "mA" =
      .ok (some ⟨ "mA", some a, none ⟩) := by
    simp [envTwo, baseEnv]
  have hmB0 : ("mB" : String) ≠ "" := by decide
  have hmA0 : ("mA" : String) ≠ "" := by decide
  have hmAB : ("mA" : String) ≠ "mB" := by decide
  have hiterA : iterImports (envTwo a b) a none = .ok [("mB", 0)] := by
    simp [iterImports, envTwo, baseEnv, iterStmts, importStmtRefs]
  have hiterB : iterImports (envTwo a b) b none = .ok [("mA", 0)] := by
    simp [iterImports, envTwo, baseEnv, iterStmts, importStmtRefs, hba]
  have hproc1 :
      processImport (envTwo a b) none pf none
        { files := [a], visited := [], toProcess := [] } ("mB", 0) =
      { files := [a, b], visited := [("mB", some b, [])], toProcess := [(b, none)] } := by
    simp [processImport, qualname, resolveSpec, visitKey, specOriginFiles,
      addOrigin, restrictSkip, newCtx, hfsB, hgr, hlr, habs, hex,
      hmB0, hb0, hbn, hba, hgb, hlb, hpkg]
  have hproc2 :
      processImport (envTwo a b) none pf none
        { files := [a, b], visited := [("mB", some b, [])], toProcess := [] } ("mA", 0) =
      { files := [a, b], visited := [("mB", some b, []), ("mA", some a, [])],
        toProcess := [] } := by
    simp [processImport, qualname, resolveSpec, visitKey, specOriginFiles,
      addOrigin, restrictSkip, newCtx, hfsA, hgr, hlr, habs, hex,
      hmA0, hmAB, ha0, han, hpkg]
  have hseed : collect_imported_files (envTwo a b) a none (k + 3) pf =
      collectLoop (envTwo a b) none pf (k + 3)
        { files := [a], visited := [],
          toProcess := [(a, pkg_name_for_file (envTwo a b) pf a)] } := rfl
  rw [hseed, hpkg a]
  rw [show k + 3 = (k + 2) + 1 from rfl]
  rw [collectLoop_step (envTwo a b) none pf (k + 2)
        ⟨[a], [], [(a, none)]⟩ a none [] [("mB", 0)] rfl hiterA]
  rw [show List.foldl (processImport (envTwo a b) none pf none)
        { files := [a], visited := [], toProcess := [] } [("mB", 0)] =
      processImport (envTwo a b) none pf none
        { files := [a], visited := [], toProcess := [] } ("mB", 0) from rfl]
  rw [hproc1]
  rw [show k + 2 = (k + 1) + 1 from rfl]
  rw [collectLoop_step (envTwo a b) none pf (k + 1)
        ⟨[a, b], [("mB", some b, [])], [(b, none)]⟩ b none [] [("mA", 0)] rfl hiterB]
  rw [show List.foldl (processImport (envTwo a b) none pf none)
        { files := [a, b], visited := [("mB", some b, [])], toProcess := [] }
        [("mA", 0)] =
      processImport (envTwo a b) none pf none
        { files := [a, b], visited := [("mB", some b, [])], toProcess := [] }
        ("mA", 0) from rfl]
  rw [hproc2]
  exact collectLoop_empty (envTwo a b) none pf (k + 1) _ rfl

/-- C8 (witness): the two-file cycle theorem applied to two concrete
paths. -/
theorem closure_mutual_imports_terminates_witness :
    collect_imported_files (envTwo "/p/a.py" "/p/b.py") "/p/a.py" none 3 0 =
      .ok ["/p/a.py", "/p/b.py"] :=
  closure_mutual_imports_terminates "/p/a.py" "/p/b.py" 3 0
    (by decide) (by decide) (by decide) (by decide) (by decide)
    (by decide) (by decide) (by decide) (by decide) (by decide)

/-- The character recursion of the separator replacement equals the fold
form used by the spec-side flattening. -/
lemma replaceSlashAux_eq_foldr (l : List Char) :
    replaceSlashAux l =
      l.foldr (fun c acc => if c = '/' then '_' :: '_' :: acc else c :: acc) [] := by
  induction l with
  | nil => rfl
  | cons c cs ih => simp [replaceSlashAux, ih]

/-- The source path mapping equals the spec-side flattening on every
string. -/
lemma pyReplaceSlash_eq_specFlatten (s : String) : pyReplaceSlash s = specFlatten s := by
  unfold pyReplaceSlash specFlatten
  rw [replaceSlashAux_eq_foldr]

/-- C9: for a workload built from an entry script, the stored base path
is the parent directory of the absolutized entry, the entry-relative
property is the entry path relative to that base, every flattened name is
the relative path with each separator replaced by the double-underscore
delimiter, and the flattening is deterministic given the relative
path. -/
theorem workload_flattening_correct
    (env : Env) (es : String) (fuel pf : Nat) (w : Workload)
    (h : workloadInit env (some es) none fuel pf = .ok w) :
    w.basePath = env.dirname (env.abspath es) ∧
    w.entryFile = env.abspath es ∧
    Workload.entryRel env w =
      env.relpath (env.abspath (env.abspath es)) (env.dirname (env.abspath es)) ∧
    (∀ f, path_mapping env w.basePath f = specFlatten (relative_path env w.basePath f)) ∧
    (∀ f g, relative_path env w.basePath f = relative_path env w.basePath g →
      path_mapping env w.basePath f = path_mapping env w.basePath g) := by
  simp only [workloadInit] at h
  cases hc : collect_imported_files env (env.abspath es) none fuel pf with
  | error e => rw [hc] at h; cases h
  | ok fs =>
      rw [hc] at h
      dsimp only at h
      cases hr : readAll env (env.dirname (env.abspath es)) fs with
      | none => rw [hr] at h; cases h
      | some pairs =>
          rw [hr] at h
          dsimp only at h
          injection h with h
          subst h
          refine ⟨rfl, rfl, rfl, ?_, ?_⟩
          · intro f
            unfold path_mapping
            rw [pyReplaceSlash_eq_specFlatten]
          · intro f g hfg
            unfold path_mapping
            rw [hfg]

/-- C9 (witness): the packaging theorem applied to the concrete one-file
workload. -/
theorem workload_flattening_correct_witness :
    workloadInit envOne (some "/w/a.py") none 2 2 = .ok wOne ∧
    (wOne.basePath = envOne.dirname (envOne.abspath "/w/a.py") ∧
     Workload.entryRel envOne wOne =
       envOne.relpath (envOne.abspath (envOne.abspath "/w/a.py"))
         (envOne.dirname (envOne.abspath "/w/a.py"))) :=
  ⟨by decide,
   ⟨(workload_flattening_correct envOne "/w/a.py" 2 2 wOne (by decide)).1,
    (workload_flattening_correct envOne "/w/a.py" 2 2 wOne (by decide)).2.2.1⟩⟩

/-- The keys of the content map built by readAll are the path mappings of
the files it read. -/
lemma readAll_keys (env : Env) (b : String) :
    ∀ (fs : List String) (ps : List (String × String)),
      readAll env b fs = some ps → ps.map Prod.fst = fs.map (path_mapping env b) := by
  intro fs
  induction fs with
  | nil =>
      intro ps h
      injection h with h
      subst h
      rfl
  | cons f fs ih =>
      intro ps h
      unfold readAll at h
      cases hrf : env.readFile f with
      | none => rw [hrf] at h; cases h
      | some t =>
          rw [hrf] at h
          dsimp only at h
          cases hra : readAll env b fs with
          | none => rw [hra] at h; cases h
          | some rest =>
              rw [hra] at h
              dsimp only at h
              injection h with h
              subst h
              simp [ih rest hra]

/-- C10: for every successfully constructed workload, from an entry
script or from inline code, the key list of the content map equals the
key list of the flattened-name-to-relative-path mapping. -/
theorem workload_data_keys_eq_mapping_keys
    (env : Env) (es code : Option String) (fuel pf : Nat) (w : Workload)
    (h : workloadInit env es code fuel pf = .ok w) :
    w.data.map Prod.fst = (Workload.mappings env w).map Prod.fst := by
  cases es with
  | some e =>
      simp only [workloadInit] at h
      cases hc : collect_imported_files env (env.abspath e) none fuel pf with
      | error err => rw [hc] at h; cases h
      | ok fs =>
          rw [hc] at h
          dsimp only at h
          cases hr : readAll env (env.dirname (env.abspath e)) fs with
          | none => rw [hr] at h; cases h
          | some pairs =>
              rw [hr] at h
              dsimp only at h
              injection h with h
              subst h
              have hk := readAll_keys env (env.dirname (env.abspath e)) fs pairs hr
              simp [Workload.mappings, hk, List.map_map, Function.comp]
  | none =>
      cases code with
      | some c =>
          simp only [workloadInit] at h
          injection h with h
          subst h
          rfl
      | none =>
          simp only [workloadInit] at h
          cases h

/-- C10 (witness): the key-set theorem applied to the concrete
inline-code workload. -/
theorem workload_data_keys_eq_mapping_keys_witness :
    workloadInit envOne none (some "c") 0 0 = .ok wCode ∧
    wCode.data.map Prod.fst = (Workload.mappings envOne wCode).map Prod.fst :=
  ⟨by decide,
   workload_data_keys_eq_mapping_keys envOne none (some "c") 0 0 wCode (by decide)⟩
